import Mathlib

/-!
Verification of the grading core of the monitoring-stack challenge runner
(`run.py`): the per-artifact checkers, the comment-awareness predicates,
and the aggregator that sums points and computes the completion percentage.

Each `check_*` definition below is a shallow embedding of the Python
function of the same name.  Python strings are handled as `String` /
`List Char`; Python tuples `(name, passed, detail)` become `CheckOutcome`;
point counters are `ℕ`.  The dashboard JSON parse (`json.loads`) is
abstracted by the `DashContent` constructor split, matching the
content-source interface: the checker receives either raw parse success
(a structured `Dashboard` value), a parse failure, or an absent-file signal.
The floating-point percentage computation `int((total / max) * 100)` is
embedded exactly, via an IEEE binary64 round-to-nearest-even model over
natural-number fractions (`fl64Pair`), valid on the normal, non-overflowing
range that the program's values (integers up to 10000/100) inhabit.
-/

namespace MonitoringStack

/-- One rubric item's result: the Python tuple `(name, passed, detail)`
appended to the `checks` list by every checker. -/
structure CheckOutcome where
  name : String
  passed : Bool
  detail : String
deriving DecidableEq, Repr

/-- The triple returned by every Python checker: `(checks, points, max_points)`. -/
abbrev CheckerResult := List CheckOutcome × ℕ × ℕ

/-- Python substring test `needle in haystack`, on character lists:
true iff `needle` occurs contiguously in the haystack. -/
def listContainsSub (needle : List Char) : List Char → Bool
  | [] => needle.isEmpty
  | c :: rest => needle.isPrefixOf (c :: rest) || listContainsSub needle rest

/-- Python `literal in text` on strings (the spec's `containsLiteral`). -/
def containsLiteral (text literal : String) : Bool :=
  listContainsSub literal.toList text.toList

/-- Python `text.split(pat)[0]`: the characters strictly before the first
occurrence of `pat`, or the whole text when `pat` does not occur. -/
def takeUntilSub (pat : List Char) : List Char → List Char
  | [] => []
  | c :: rest => if pat.isPrefixOf (c :: rest) then [] else c :: takeUntilSub pat rest

/-- Python slice `s[-n:]`: the last `n` characters (all of them when shorter). -/
def lastN (n : ℕ) (l : List Char) : List Char := l.drop (l.length - n)

/-- Python `str.strip()` whitespace set (the ASCII part, which is all that
the checked configuration texts contain). -/
def isPyWS (c : Char) : Bool :=
  c = ' ' || c = '\t' || c = '\n' || c = '\r' || c = '\x0b' || c = '\x0c'

/-- Python `line.strip()`. -/
def pyStrip (l : List Char) : List Char :=
  ((l.dropWhile isPyWS).reverse.dropWhile isPyWS).reverse

/-- Python `line.strip().startswith("#")`: the line's first non-whitespace
character is a comment marker. -/
def lineCommented (line : List Char) : Bool :=
  match pyStrip line with
  | [] => false
  | c :: _ => c = '#'

/-- Python `content.split("\n")` (so the empty text gives one empty line). -/
def splitLines : List Char → List (List Char)
  | [] => [[]]
  | c :: rest =>
    match splitLines rest with
    | [] => [[]]
    | h :: t => if c = '\n' then [] :: h :: t else (c :: h) :: t

/-- A single-quote character as a string, used to spell the Python patterns
`job_name: ...` that quote the job name. -/
def sq : String := (Char.ofNat 39).toString

/-! ### Collector scrape config checker (`check_prometheus_config`, max 20) -/

/-- Rule 1 of `check_prometheus_config`: exact scrape-interval value is worth 4,
the key with a wrong value 2, a missing key 0. -/
def scrapeIntervalCheck (content : String) : CheckOutcome × ℕ :=
  if containsLiteral content "scrape_interval: 15s" then
    (⟨"Scrape interval 15s", true, "Configured"⟩, 4)
  else if containsLiteral content "scrape_interval:" then
    (⟨"Scrape interval 15s", false, "Wrong value"⟩, 2)
  else
    (⟨"Scrape interval 15s", false, "Missing"⟩, 0)

/-- Rule 2 of `check_prometheus_config`: `alertmanagers:` present, and the
20 characters before its first occurrence do not contain `# alertmanagers`
(the Python slice-window comment heuristic). -/
def alertmanagerCheck (content : String) : CheckOutcome × ℕ :=
  if containsLiteral content "alertmanagers:" &&
      !(listContainsSub ("# alertmanagers".toList)
        (lastN 20 (takeUntilSub ("alertmanagers:".toList) content.toList))) then
    (⟨"Alertmanager config", true, "Configured"⟩, 4)
  else
    (⟨"Alertmanager config", false, "Missing or commented"⟩, 0)

/-- The three required scrape job names. -/
def promJobs : List String := ["prometheus", "app", "node"]

/-- The single-quoted Python pattern `job_name: ...` for one job. -/
def jobPattern (job : String) : String := "job_name: " ++ sq ++ job ++ sq

/-- One job rule of `check_prometheus_config`: the quoted job pattern occurs
(single or double quotes) and `# ` followed by the single-quoted pattern
occurs nowhere in the text. -/
def jobCheck (content job : String) : CheckOutcome × ℕ :=
  if (containsLiteral content (jobPattern job) ||
      containsLiteral content ("job_name: \"" ++ job ++ "\"")) &&
      !containsLiteral content ("# " ++ jobPattern job) then
    (⟨"Job: " ++ job, true, "Configured"⟩, 4)
  else
    (⟨"Job: " ++ job, false, "Missing or commented"⟩, 0)

/-- Embedding of `check_prometheus_config` (`run.py`, lines 50-87). -/
def check_prometheus_config : Option String → CheckerResult
  | none => ([⟨"prometheus.yml exists", false, "File not found"⟩], 0, 20)
  | some content =>
    ((scrapeIntervalCheck content).1 :: (alertmanagerCheck content).1 ::
      (promJobs.map fun job => (jobCheck content job).1),
     (scrapeIntervalCheck content).2 + (alertmanagerCheck content).2 +
       (promJobs.map fun job => (jobCheck content job).2).sum,
     20)

/-! ### Alert routing checker (`check_alertmanager_config`, max 20) -/

/-- One rule of `check_alertmanager_config`: plain literal presence, 5 points. -/
def amRule (content key nm : String) : CheckOutcome × ℕ :=
  if containsLiteral content key then (⟨nm, true, ""⟩, 5)
  else (⟨nm, false, "Missing"⟩, 0)

/-- Embedding of `check_alertmanager_config` (`run.py`, lines 90-127). -/
def check_alertmanager_config : Option String → CheckerResult
  | none => ([⟨"alertmanager.yml exists", false, "File not found"⟩], 0, 20)
  | some content =>
    ([(amRule content "route:" "Route configured").1,
      (amRule content "receivers:" "Receivers defined").1,
      (amRule content "group_by:" "Group by configured").1,
      (amRule content "inhibit_rules:" "Inhibit rules").1],
     (amRule content "route:" "Route configured").2 +
       (amRule content "receivers:" "Receivers defined").2 +
       (amRule content "group_by:" "Group by configured").2 +
       (amRule content "inhibit_rules:" "Inhibit rules").2,
     20)

/-! ### Datasource provisioning checker (`check_grafana_datasource`, max 15) -/

/-- Rule 1 of `check_grafana_datasource`: `datasources:` present, and the 5
characters before its first occurrence do not contain `# datasources`. -/
def dsListRule (content : String) : CheckOutcome × ℕ :=
  if containsLiteral content "datasources:" &&
      !(listContainsSub ("# datasources".toList)
        (lastN 5 (takeUntilSub ("datasources:".toList) content.toList))) then
    (⟨"Datasources defined", true, ""⟩, 3)
  else
    (⟨"Datasources defined", false, "Missing or commented"⟩, 0)

/-- Rule 2 of `check_grafana_datasource`: collector type literal, uncommented. -/
def dsTypeRule (content : String) : CheckOutcome × ℕ :=
  if containsLiteral content "type: prometheus" &&
      !containsLiteral content "# type: prometheus" then
    (⟨"Prometheus type", true, ""⟩, 4)
  else
    (⟨"Prometheus type", false, "Missing or commented"⟩, 0)

/-- Rule 3 of `check_grafana_datasource`: the collector URL, bare or quoted. -/
def dsUrlRule (content : String) : CheckOutcome × ℕ :=
  if containsLiteral content "url: http://prometheus:9090" ||
      containsLiteral content "url: \"http://prometheus:9090\"" then
    (⟨"Prometheus URL", true, ""⟩, 4)
  else
    (⟨"Prometheus URL", false, "Missing or wrong"⟩, 0)

/-- Rule 4 of `check_grafana_datasource`: the `isDefault: true` literal. -/
def dsDefaultRule (content : String) : CheckOutcome × ℕ :=
  if containsLiteral content "isDefault: true" then (⟨"Is default", true, ""⟩, 4)
  else (⟨"Is default", false, "Missing"⟩, 0)

/-- Embedding of `check_grafana_datasource` (`run.py`, lines 130-167). -/
def check_grafana_datasource : Option String → CheckerResult
  | none => ([⟨"datasource config exists", false, "File not found"⟩], 0, 15)
  | some content =>
    ([(dsListRule content).1, (dsTypeRule content).1,
      (dsUrlRule content).1, (dsDefaultRule content).1],
     (dsListRule content).2 + (dsTypeRule content).2 +
       (dsUrlRule content).2 + (dsDefaultRule content).2,
     15)

/-! ### Dashboard checker (`check_dashboard`, max 25) -/

/-- A dashboard query target; `expr` models `target.get("expr", "")`
(`none` when the key is absent). -/
structure Target where
  expr : Option String
deriving DecidableEq, Repr

/-- A dashboard panel; `targets` models `panel.get("targets", [])`. -/
structure Panel where
  targets : List Target
deriving DecidableEq, Repr

/-- A parsed dashboard; `panels` models `dashboard.get("panels", [])` and
`title` models `dashboard.get("title")` (`none` when the key is absent). -/
structure Dashboard where
  panels : List Panel
  title : Option String
deriving DecidableEq, Repr

/-- Dashboard artifact content as `check_dashboard` sees it: the file may be
absent, `json.loads` may fail, or it yields a structured `Dashboard`.  The
JSON parser itself is external to the scoring logic and is abstracted by
this constructor split.  This typed view covers exactly the well-shaped
parsed values; the companion dynamic model (`Json`, `check_dashboard_dyn`
below) embeds the same source function over arbitrary parsed JSON, including
the shapes on which the Python code raises. -/
inductive DashContent where
  | absent
  | malformed
  | parsed (d : Dashboard)
deriving DecidableEq, Repr

/-- The `expr` string a target contributes: `target.get("expr", "")`. -/
def exprOf (t : Target) : String := t.expr.getD ""

/-- All targets of all panels, in panel order (the double loop in
`check_dashboard`). -/
def dashTargets (d : Dashboard) : List Target := d.panels.flatMap Panel.targets

/-- The loop counter `placeholder_count`: targets whose `expr` contains the
placeholder marker `REPLACE_WITH`. -/
def placeholderCount (d : Dashboard) : ℕ :=
  (dashTargets d).countP fun t => containsLiteral (exprOf t) "REPLACE_WITH"

/-- The loop flag `has_real_queries`: some target has a nonempty `expr`
without the placeholder marker. -/
def hasRealQueries (d : Dashboard) : Bool :=
  (dashTargets d).any fun t =>
    !containsLiteral (exprOf t) "REPLACE_WITH" && exprOf t != ""

/-- The panel-count rule of `check_dashboard`: at least 4 panels. -/
def panelsRule (d : Dashboard) : CheckOutcome × ℕ :=
  if 4 ≤ d.panels.length then
    (⟨"4+ panels", true, toString d.panels.length ++ " panels"⟩, 5)
  else
    (⟨"4+ panels", false, "Only " ++ toString d.panels.length ++ " panels"⟩, 0)

/-- The query rule of `check_dashboard`: 10 for all-real queries, 5 when real
queries coexist with placeholders, 0 when no real query exists. -/
def queriesRule (d : Dashboard) : CheckOutcome × ℕ :=
  if hasRealQueries d && placeholderCount d == 0 then
    (⟨"Real PromQL queries", true, "All panels have queries"⟩, 10)
  else if hasRealQueries d then
    (⟨"Real PromQL queries", false,
      toString (placeholderCount d) ++ " placeholders remaining"⟩, 5)
  else
    (⟨"Real PromQL queries", false, "No real queries"⟩, 0)

/-- The title rule of `check_dashboard`: 5 for a nonempty title different from
the default literal, else 2 unconditionally in the default-or-missing branch. -/
def titleRule (d : Dashboard) : CheckOutcome × ℕ :=
  match d.title with
  | some t =>
    if t != "" && t != "App Dashboard" then (⟨"Custom title", true, t⟩, 5)
    else (⟨"Custom title", false, "Using default title"⟩, 2)
  | none => (⟨"Custom title", false, "Using default title"⟩, 2)

/-- Embedding of `check_dashboard` (`run.py`, lines 170-224) on well-shaped
content; `check_dashboard_dyn` below embeds the same function with Python's
dynamic-typing behaviour on arbitrary parsed JSON. -/
def check_dashboard : DashContent → CheckerResult
  | .absent => ([⟨"dashboard.json exists", false, "File not found"⟩], 0, 25)
  | .malformed => ([⟨"Valid JSON", false, "Invalid JSON"⟩], 0, 25)
  | .parsed d =>
    ([⟨"Valid JSON", true, ""⟩, (panelsRule d).1, (queriesRule d).1, (titleRule d).1],
     5 + (panelsRule d).2 + (queriesRule d).2 + (titleRule d).2,
     25)

/-! ### Dynamic model of the dashboard checker

`json.loads` can return any JSON value, and `check_dashboard` only catches
`json.JSONDecodeError`: on valid JSON of an unexpected shape (for example the
text `[]`) the subsequent `dashboard.get(...)` / `len(...)` raises an
uncaught `AttributeError` or `TypeError` and the checker returns nothing.
The model below embeds the same source lines over untyped JSON values, with
every Python operation the function applies — attribute lookup, `len`,
iteration, the `in` operator, truthiness, comparison with a string — given
its dynamic semantics, and an uncaught exception represented as
`Except.error`. -/

/-- An arbitrary parsed JSON value (numeric values are modelled as integers;
every operation the checker applies treats all numbers alike, so the
integer/float distinction is irrelevant here). -/
inductive Json where
  | null
  | bool (b : Bool)
  | num (n : ℤ)
  | str (s : String)
  | arr (xs : List Json)
  | obj (kvs : List (String × Json))

/-- One outcome tuple of the dynamic model; `detail` carries the raw Python
value placed in the tuple (the custom-title branch stores the title value
itself, every other branch a string literal). -/
structure DynOutcome where
  name : String
  passed : Bool
  detail : Json

/-- Python truthiness of a JSON value. -/
def pyTruthy : Json → Bool
  | .null => false
  | .bool b => b
  | .num n => n != 0
  | .str s => s != ""
  | .arr xs => !xs.isEmpty
  | .obj kvs => !kvs.isEmpty

/-- Python equality of a JSON value with a string literal (never raises; a
non-string value is simply unequal). -/
def pyEqStr : Json → String → Bool
  | .str s, t => s == t
  | _, _ => false

/-- Python `v.get(key, dflt)`: dictionaries look the key up (first binding);
any other value has no `get` attribute and raises AttributeError. -/
def pyGet (v : Json) (key : String) (dflt : Json) : Except String Json :=
  match v with
  | .obj kvs =>
    match kvs.find? fun kv => kv.1 == key with
    | some kv => .ok kv.2
    | none => .ok dflt
  | _ => .error "AttributeError"

/-- Python `len(v)`: sequences and mappings have a length; numbers, booleans
and None raise TypeError. -/
def pyLen : Json → Except String ℕ
  | .str s => .ok s.length
  | .arr xs => .ok xs.length
  | .obj kvs => .ok kvs.length
  | _ => .error "TypeError"

/-- Python iteration `for x in v`: lists yield their elements, strings their
characters as one-character strings, dictionaries their keys; numbers,
booleans and None raise TypeError. -/
def pyIter : Json → Except String (List Json)
  | .arr xs => .ok xs
  | .str s => .ok (s.toList.map fun c => .str c.toString)
  | .obj kvs => .ok (kvs.map fun kv => .str kv.1)
  | _ => .error "TypeError"

/-- Python `needle in v` for a string needle: substring test on strings,
membership on lists, key membership on dictionaries; otherwise TypeError. -/
def pyContainsStr (needle : String) : Json → Except String Bool
  | .str s => .ok (containsLiteral s needle)
  | .arr xs => .ok (xs.any fun x => pyEqStr x needle)
  | .obj kvs => .ok (kvs.any fun kv => kv.1 == needle)
  | _ => .error "TypeError"

/-- The inner target loop of `check_dashboard`, threading
`(placeholder_count, has_real_queries)` in loop order. -/
def scanTargets (acc : ℕ × Bool) : List Json → Except String (ℕ × Bool)
  | [] => .ok acc
  | target :: rest =>
    match pyGet target "expr" (.str "") with
    | .error e => .error e
    | .ok expr =>
      match pyContainsStr "REPLACE_WITH" expr with
      | .error e => .error e
      | .ok hasPh =>
        if hasPh then scanTargets (acc.1 + 1, acc.2) rest
        else if pyTruthy expr && !pyEqStr expr "" then scanTargets (acc.1, true) rest
        else scanTargets acc rest

/-- The outer panel loop of `check_dashboard`. -/
def scanPanels (acc : ℕ × Bool) : List Json → Except String (ℕ × Bool)
  | [] => .ok acc
  | panel :: rest =>
    match pyGet panel "targets" (.arr []) with
    | .error e => .error e
    | .ok targets =>
      match pyIter targets with
      | .error e => .error e
      | .ok ts =>
        match scanTargets acc ts with
        | .error e => .error e
        | .ok acc2 => scanPanels acc2 rest

/-- The panel-count rule over the dynamically computed `len(panels)`. -/
def dynPanelsRule (n : ℕ) : DynOutcome × ℕ :=
  if 4 ≤ n then (⟨"4+ panels", true, .str (toString n ++ " panels")⟩, 5)
  else (⟨"4+ panels", false, .str ("Only " ++ toString n ++ " panels")⟩, 0)

/-- The query rule over the loop state `(placeholder_count, has_real_queries)`. -/
def dynQueriesRule (scan : ℕ × Bool) : DynOutcome × ℕ :=
  if scan.2 && scan.1 == 0 then
    (⟨"Real PromQL queries", true, .str "All panels have queries"⟩, 10)
  else if scan.2 then
    (⟨"Real PromQL queries", false, .str (toString scan.1 ++ " placeholders remaining")⟩, 5)
  else (⟨"Real PromQL queries", false, .str "No real queries"⟩, 0)

/-- The title rule over the raw value of `dashboard.get("title")` (Python
`None` when absent, modelled as `Json.null`); the subscript
`dashboard["title"]` in the passing branch re-reads the same binding. -/
def dynTitleRule (title : Json) : DynOutcome × ℕ :=
  if pyTruthy title && !pyEqStr title "App Dashboard" then
    (⟨"Custom title", true, title⟩, 5)
  else (⟨"Custom title", false, .str "Using default title"⟩, 2)

/-- Embedding of `check_dashboard` (`run.py`, lines 170-224) over arbitrary
parsed JSON: `none` is an absent file, `some none` a `json.loads` failure,
`some (some v)` the parsed value `v`; `Except.error` is an uncaught Python
exception escaping the checker. -/
def check_dashboard_dyn : Option (Option Json) → Except String (List DynOutcome × ℕ × ℕ)
  | none => .ok ([⟨"dashboard.json exists", false, .str "File not found"⟩], 0, 25)
  | some none => .ok ([⟨"Valid JSON", false, .str "Invalid JSON"⟩], 0, 25)
  | some (some dashboard) =>
    match pyGet dashboard "panels" (.arr []) with
    | .error e => .error e
    | .ok panels =>
      match pyLen panels with
      | .error e => .error e
      | .ok n =>
        match pyIter panels with
        | .error e => .error e
        | .ok ps =>
          match scanPanels (0, false) ps with
          | .error e => .error e
          | .ok scan =>
            match pyGet dashboard "title" .null with
            | .error e => .error e
            | .ok title =>
              .ok ([⟨"Valid JSON", true, .str ""⟩, (dynPanelsRule n).1,
                    (dynQueriesRule scan).1, (dynTitleRule title).1],
                   5 + (dynPanelsRule n).2 + (dynQueriesRule scan).2 + (dynTitleRule title).2,
                   25)

/-- The dynamic dashboard checker's result on the empty JSON object `{}`:
no panels, no queries, default title, 7 of 25. -/
def dynEmptyObjResult : List DynOutcome × ℕ × ℕ :=
  ([⟨"Valid JSON", true, .str ""⟩,
    ⟨"4+ panels", false, .str "Only 0 panels"⟩,
    ⟨"Real PromQL queries", false, .str "No real queries"⟩,
    ⟨"Custom title", false, .str "Using default title"⟩], 7, 25)

/-! ### Alert rules checker (`check_alerts`, max 20) -/

/-- The four required alert names. -/
def alert_names : List String := ["HighErrorRate", "HighLatency", "ServiceDown", "HighCPUUsage"]

/-- The per-line scan of `check_alerts`: some line of the text both is not
comment-prefixed (after stripping) and contains `alert: ...` for this alert. -/
def alertLive (content alert : String) : Bool :=
  (splitLines content.toList).any fun line =>
    !lineCommented line && listContainsSub ("alert: " ++ alert).toList line

/-- One alert rule of `check_alerts`: 5 when the alert literal occurs and is
live, 0 with `Commented out` when it occurs only on comment lines, 0 with
`Missing` when it never occurs. -/
def alertCheck (content alert : String) : CheckOutcome × ℕ :=
  if containsLiteral content ("alert: " ++ alert) then
    if alertLive content alert then (⟨"Alert: " ++ alert, true, "Configured"⟩, 5)
    else (⟨"Alert: " ++ alert, false, "Commented out"⟩, 0)
  else (⟨"Alert: " ++ alert, false, "Missing"⟩, 0)

/-- Embedding of `check_alerts` (`run.py`, lines 227-260). -/
def check_alerts : Option String → CheckerResult
  | none => ([⟨"alerts.yml exists", false, "File not found"⟩], 0, 20)
  | some content =>
    ((alert_names.map fun a => (alertCheck content a).1),
     (alert_names.map fun a => (alertCheck content a).2).sum,
     20)

/-! ### App instrumentation checker (`check_app_instrumentation`, max 20) -/

/-- One rule of `check_app_instrumentation`: the pattern occurs and its
comment-prefixed form does not, 4 points. -/
def appRule (content pat negPat nm : String) : CheckOutcome × ℕ :=
  if containsLiteral content pat && !containsLiteral content negPat then
    (⟨nm, true, ""⟩, 4)
  else (⟨nm, false, "Missing or commented"⟩, 0)

/-- Embedding of `check_app_instrumentation` (`run.py`, lines 263-307); defined
by the source but never called by `check_all_configs`. -/
def check_app_instrumentation : Option String → CheckerResult
  | none => ([⟨"app.py exists", false, "File not found"⟩], 0, 20)
  | some content =>
    ([(appRule content "from prometheus_client import" "# from prometheus_client" "Prometheus client import").1,
      (appRule content "Counter(" "# Counter(" "Request counter").1,
      (appRule content "Histogram(" "# Histogram(" "Request histogram").1,
      (appRule content "@app.route(\"/metrics\")" "# @app.route(\"/metrics\")" "Metrics endpoint").1,
      (appRule content "generate_latest()" "# generate_latest()" "Generate latest").1],
     (appRule content "from prometheus_client import" "# from prometheus_client" "Prometheus client import").2 +
       (appRule content "Counter(" "# Counter(" "Request counter").2 +
       (appRule content "Histogram(" "# Histogram(" "Request histogram").2 +
       (appRule content "@app.route(\"/metrics\")" "# @app.route(\"/metrics\")" "Metrics endpoint").2 +
       (appRule content "generate_latest()" "# generate_latest()" "Generate latest").2,
     20)

/-! ### IEEE binary64 model for the percentage computation

`run.py` computes `progress_pct = int((total_points / max_total) * 100)` with
Python floats (IEEE binary64, round to nearest, ties to even).  The model
below evaluates exactly that expression over natural-number fractions; it is
exact for positive values in the normal, non-overflowing binary64 range,
which contains every value this program can produce. -/

/-- Fuel-driven bit length: `bitLenAux f n` halves `n` at most `f` times. -/
def bitLenAux : ℕ → ℕ → ℕ
  | 0, _ => 0
  | f + 1, n => if n = 0 then 0 else bitLenAux f (n / 2) + 1

/-- Bit length of a natural number: `0` for `0`, otherwise `⌊log2 n⌋ + 1`
(fuel `n` always suffices, since halving a positive number at most `n` times
reaches `0`). -/
def bitLen (n : ℕ) : ℕ := bitLenAux n n

/-- Round `n / d` (with `d > 0`) to the nearest integer, ties to even. -/
def rneNat (n d : ℕ) : ℕ :=
  let q := n / d
  let r := n % d
  if 2 * r < d then q else if d < 2 * r then q + 1 else if q % 2 = 0 then q else q + 1

/-- The binary exponent `⌊log2 (n / d)⌋` of a positive fraction, computed from
the bit lengths of numerator and denominator. -/
def floatExpZ (n d : ℕ) : ℤ :=
  let a : ℤ := bitLen n
  let b : ℤ := bitLen d
  if d * 2 ^ (a - b).toNat ≤ n * 2 ^ (b - a).toNat then a - b else a - b - 1

/-- IEEE binary64 rounding of the nonnegative fraction `n / d` (`d > 0`),
returned as a fraction whose denominator is a power of two: the significand
is rounded to 53 bits, to nearest, ties to even. -/
def fl64Pair (n d : ℕ) : ℕ × ℕ :=
  if n = 0 then (0, 1) else
    let e := floatExpZ n d
    if e ≤ 52 then
      let s := (52 - e).toNat
      (rneNat (n * 2 ^ s) d, 2 ^ s)
    else
      let t := (e - 52).toNat
      (rneNat n (d * 2 ^ t) * 2 ^ t, 1)

/-- The percentage computed by `check_all_configs` (`run.py`, line 348):
`int((total_points / max_total) * 100) if max_total > 0 else 0`, with the two
float operations (true division, then multiplication by 100) evaluated in the
binary64 model and `int` truncating the nonnegative result. -/
def progress_pct (total maxT : ℕ) : ℕ :=
  if 0 < maxT then
    let x1 := fl64Pair total maxT
    let x2 := fl64Pair (x1.1 * 100) x1.2
    x2.1 / x2.2
  else 0

/-! ### Aggregator (`check_all_configs`) -/

/-- The graded result of one artifact, as accumulated by the loop of
`check_all_configs`. -/
structure ArtifactReport where
  displayName : String
  checks : List CheckOutcome
  pointsEarned : ℕ
  pointsMax : ℕ
deriving DecidableEq, Repr

/-- Package one checker's triple under its display name. -/
def mkReport (nm : String) (r : CheckerResult) : ArtifactReport :=
  ⟨nm, r.1, r.2.1, r.2.2⟩

/-- The aggregate of one grading run. -/
structure OverallReport where
  artifacts : List ArtifactReport
  totalEarned : ℕ
  totalMax : ℕ
  percentage : ℕ
  complete : Bool
deriving DecidableEq, Repr

/-- The five artifact contents a grading run reads, in the fixed order of the
`config_checks` table of `check_all_configs`; `none` (or `.absent`) models a
missing file. -/
structure ContentBundle where
  prometheusCfg : Option String
  alertmanagerCfg : Option String
  datasourceCfg : Option String
  dashboardCfg : DashContent
  alertsCfg : Option String

/-- The five artifact reports of a run, in `config_checks` order. -/
def artifactReports (b : ContentBundle) : List ArtifactReport :=
  [mkReport "Prometheus Config" (check_prometheus_config b.prometheusCfg),
   mkReport "Alertmanager" (check_alertmanager_config b.alertmanagerCfg),
   mkReport "Grafana Datasource" (check_grafana_datasource b.datasourceCfg),
   mkReport "Grafana Dashboard" (check_dashboard b.dashboardCfg),
   mkReport "Alert Rules" (check_alerts b.alertsCfg)]

/-- Embedding of the scoring core of `check_all_configs` (`run.py`,
lines 310-365): run the five checkers, sum earned and maximum points,
compute the percentage, and flag completion (`progress_pct == 100`, the
function's return value). -/
def check_all_configs (b : ContentBundle) : OverallReport :=
  { artifacts := artifactReports b
    totalEarned := ((artifactReports b).map ArtifactReport.pointsEarned).sum
    totalMax := ((artifactReports b).map ArtifactReport.pointsMax).sum
    percentage := progress_pct ((artifactReports b).map ArtifactReport.pointsEarned).sum
      (((artifactReports b).map ArtifactReport.pointsMax).sum)
    complete := progress_pct ((artifactReports b).map ArtifactReport.pointsEarned).sum
      (((artifactReports b).map ArtifactReport.pointsMax).sum) == 100 }

/-! ### Concrete inputs used by individual claims -/

/-- A parsed dashboard with exactly two panels, no targets and no title. -/
def twoPanelDash : Dashboard := ⟨[⟨[]⟩, ⟨[]⟩], none⟩

/-- A parsed dashboard with four empty panels and no title: worth 12 points. -/
def fourPanelDash : Dashboard := ⟨[⟨[]⟩, ⟨[]⟩, ⟨[]⟩, ⟨[]⟩], none⟩

/-- A content bundle whose grading run earns exactly 29 of 100 points
(2 + 5 + 0 + 12 + 10). -/
def bundle29 : ContentBundle :=
  ⟨some "scrape_interval: 30s", some "route:", some "",
   DashContent.parsed fourPanelDash,
   some ("alert: HighErrorRate\nalert: HighLatency")⟩

/-! ### Helper lemmas: fixed maxima and point bounds -/

theorem check_prometheus_config_max (c : Option String) :
    (check_prometheus_config c).2.2 = 20 := by cases c <;> rfl

theorem check_alertmanager_config_max (c : Option String) :
    (check_alertmanager_config c).2.2 = 20 := by cases c <;> rfl

theorem check_grafana_datasource_max (c : Option String) :
    (check_grafana_datasource c).2.2 = 15 := by cases c <;> rfl

theorem check_dashboard_max (c : DashContent) :
    (check_dashboard c).2.2 = 25 := by cases c <;> rfl

theorem check_alerts_max (c : Option String) :
    (check_alerts c).2.2 = 20 := by cases c <;> rfl

theorem check_app_instrumentation_max (c : Option String) :
    (check_app_instrumentation c).2.2 = 20 := by cases c <;> rfl

theorem scrapeIntervalCheck_le (content : String) :
    (scrapeIntervalCheck content).2 ≤ 4 := by
  unfold scrapeIntervalCheck
  split
  · simp
  split <;> simp

theorem alertmanagerCheck_le (content : String) :
    (alertmanagerCheck content).2 ≤ 4 := by
  unfold alertmanagerCheck
  split <;> simp

theorem jobCheck_le (content job : String) : (jobCheck content job).2 ≤ 4 := by
  unfold jobCheck
  split <;> simp

theorem check_prometheus_config_earned_le (c : Option String) :
    (check_prometheus_config c).2.1 ≤ 20 := by
  cases c with
  | none => simp [check_prometheus_config]
  | some content =>
    have h1 := scrapeIntervalCheck_le content
    have h2 := alertmanagerCheck_le content
    have h3 := jobCheck_le content "prometheus"
    have h4 := jobCheck_le content "app"
    have h5 := jobCheck_le content "node"
    simp [check_prometheus_config, promJobs]
    omega

theorem amRule_le (content key nm : String) : (amRule content key nm).2 ≤ 5 := by
  unfold amRule
  split <;> simp

theorem check_alertmanager_config_earned_le (c : Option String) :
    (check_alertmanager_config c).2.1 ≤ 20 := by
  cases c with
  | none => simp [check_alertmanager_config]
  | some content =>
    have h1 := amRule_le content "route:" "Route configured"
    have h2 := amRule_le content "receivers:" "Receivers defined"
    have h3 := amRule_le content "group_by:" "Group by configured"
    have h4 := amRule_le content "inhibit_rules:" "Inhibit rules"
    simp [check_alertmanager_config]
    omega

theorem dsListRule_le (content : String) : (dsListRule content).2 ≤ 3 := by
  unfold dsListRule
  split <;> simp

theorem dsTypeRule_le (content : String) : (dsTypeRule content).2 ≤ 4 := by
  unfold dsTypeRule
  split <;> simp

theorem dsUrlRule_le (content : String) : (dsUrlRule content).2 ≤ 4 := by
  unfold dsUrlRule
  split <;> simp

theorem dsDefaultRule_le (content : String) : (dsDefaultRule content).2 ≤ 4 := by
  unfold dsDefaultRule
  split <;> simp

theorem check_grafana_datasource_earned_le (c : Option String) :
    (check_grafana_datasource c).2.1 ≤ 15 := by
  cases c with
  | none => simp [check_grafana_datasource]
  | some content =>
    have h1 := dsListRule_le content
    have h2 := dsTypeRule_le content
    have h3 := dsUrlRule_le content
    have h4 := dsDefaultRule_le content
    simp [check_grafana_datasource]
    omega

theorem panelsRule_le (d : Dashboard) : (panelsRule d).2 ≤ 5 := by
  unfold panelsRule
  split <;> simp

theorem queriesRule_le (d : Dashboard) : (queriesRule d).2 ≤ 10 := by
  unfold queriesRule
  split
  · simp
  split <;> simp

theorem titleRule_le (d : Dashboard) : (titleRule d).2 ≤ 5 := by
  unfold titleRule
  split
  · split <;> simp
  · simp

theorem check_dashboard_earned_le (c : DashContent) :
    (check_dashboard c).2.1 ≤ 25 := by
  cases c with
  | absent => simp [check_dashboard]
  | malformed => simp [check_dashboard]
  | parsed d =>
    have h1 := panelsRule_le d
    have h2 := queriesRule_le d
    have h3 := titleRule_le d
    simp [check_dashboard]
    omega

theorem dynPanelsRule_le (n : ℕ) : (dynPanelsRule n).2 ≤ 5 := by
  unfold dynPanelsRule
  split <;> simp

theorem dynQueriesRule_le (s : ℕ × Bool) : (dynQueriesRule s).2 ≤ 10 := by
  unfold dynQueriesRule
  split
  · simp
  split <;> simp

theorem dynTitleRule_le (t : Json) : (dynTitleRule t).2 ≤ 5 := by
  unfold dynTitleRule
  split <;> simp

theorem dynScoreBound (n : ℕ) (s : ℕ × Bool) (t : Json) :
    5 + (dynPanelsRule n).2 + (dynQueriesRule s).2 + (dynTitleRule t).2 ≤ 25 := by
  have h1 := dynPanelsRule_le n
  have h2 := dynQueriesRule_le s
  have h3 := dynTitleRule_le t
  omega

theorem check_dashboard_dyn_ok_bounds (j : Option (Option Json))
    (r : List DynOutcome × ℕ × ℕ) (h : check_dashboard_dyn j = Except.ok r) :
    r.2.1 ≤ r.2.2 ∧ r.2.2 = 25 := by
  rcases j with _ | (_ | d)
  · simp only [check_dashboard_dyn, Except.ok.injEq] at h
    subst h
    simp
  · simp only [check_dashboard_dyn, Except.ok.injEq] at h
    subst h
    simp
  · simp only [check_dashboard_dyn] at h
    split at h
    · exact Except.noConfusion h
    split at h
    · exact Except.noConfusion h
    split at h
    · exact Except.noConfusion h
    split at h
    · exact Except.noConfusion h
    split at h
    · exact Except.noConfusion h
    injection h with h
    subst h
    exact ⟨dynScoreBound _ _ _, rfl⟩

theorem alertCheck_le (content alert : String) : (alertCheck content alert).2 ≤ 5 := by
  unfold alertCheck
  split
  · split <;> simp
  · simp

theorem check_alerts_earned_le (c : Option String) :
    (check_alerts c).2.1 ≤ 20 := by
  cases c with
  | none => simp [check_alerts]
  | some content =>
    have h1 := alertCheck_le content "HighErrorRate"
    have h2 := alertCheck_le content "HighLatency"
    have h3 := alertCheck_le content "ServiceDown"
    have h4 := alertCheck_le content "HighCPUUsage"
    simp [check_alerts, alert_names]
    omega

theorem appRule_le (content pat negPat nm : String) :
    (appRule content pat negPat nm).2 ≤ 4 := by
  unfold appRule
  split <;> simp

theorem check_app_instrumentation_earned_le (c : Option String) :
    (check_app_instrumentation c).2.1 ≤ 20 := by
  cases c with
  | none => simp [check_app_instrumentation]
  | some content =>
    have h1 := appRule_le content "from prometheus_client import" "# from prometheus_client" "Prometheus client import"
    have h2 := appRule_le content "Counter(" "# Counter(" "Request counter"
    have h3 := appRule_le content "Histogram(" "# Histogram(" "Request histogram"
    have h4 := appRule_le content "@app.route(\"/metrics\")" "# @app.route(\"/metrics\")" "Metrics endpoint"
    have h5 := appRule_le content "generate_latest()" "# generate_latest()" "Generate latest"
    simp [check_app_instrumentation]
    omega

/-! ### Helper lemmas: the aggregator -/

theorem totalMax_eq (b : ContentBundle) :
    ((artifactReports b).map ArtifactReport.pointsMax).sum = 100 := by
  simp [artifactReports, mkReport, check_prometheus_config_max,
    check_alertmanager_config_max, check_grafana_datasource_max,
    check_dashboard_max, check_alerts_max]

theorem totalEarned_le (b : ContentBundle) :
    ((artifactReports b).map ArtifactReport.pointsEarned).sum ≤ 100 := by
  have h1 := check_prometheus_config_earned_le b.prometheusCfg
  have h2 := check_alertmanager_config_earned_le b.alertmanagerCfg
  have h3 := check_grafana_datasource_earned_le b.datasourceCfg
  have h4 := check_dashboard_earned_le b.dashboardCfg
  have h5 := check_alerts_earned_le b.alertsCfg
  simp [artifactReports, mkReport]
  omega

theorem percentage_eq (b : ContentBundle) :
    (check_all_configs b).percentage =
      progress_pct ((artifactReports b).map ArtifactReport.pointsEarned).sum 100 := by
  show progress_pct _ _ = _
  rw [totalMax_eq b]

set_option maxRecDepth 4000 in
/-- Exhaustive kernel evaluation of the binary64 percentage computation on its
whole reachable domain: it returns the exact mark except at 29, 57 and 58,
where float rounding loses one percent. -/
theorem progress_pct_char :
    ∀ t < 101, progress_pct t 100 = if t = 29 ∨ t = 57 ∨ t = 58 then t - 1 else t := by
  decide

theorem progress_pct_eq_100_iff {t : ℕ} (h : t ≤ 100) :
    progress_pct t 100 = 100 ↔ t = 100 := by
  have hc := progress_pct_char t (by omega)
  rcases Decidable.em (t = 29 ∨ t = 57 ∨ t = 58) with hd | hd
  · rw [if_pos hd] at hc
    omega
  · rw [if_neg hd] at hc
    omega

theorem flatMap_targets_nil : ∀ l : List Panel, (∀ p ∈ l, p.targets = []) →
    l.flatMap Panel.targets = []
  | [], _ => rfl
  | p :: ps, h => by
    have hp : p.targets = [] := h p (List.mem_cons_self p ps)
    have ih := flatMap_targets_nil ps fun q hq => h q (List.mem_cons_of_mem p hq)
    simp [hp, ih]

/-! ### The claims -/

/-- C1 (code bug): the spec says the overall percentage is
`round(totalEarned / totalMax * 100)` when `totalMax > 0`, and 0 when
`totalMax == 0`.  The code computes `int((total_points / max_total) * 100)`
with binary64 floats, and float rounding lands just below the exact integer
mark for the reachable totals 29, 57 and 58: on `bundle29` (29 of 100
points) the run reports 28 percent while the claimed rounded value is 29.
The degenerate `totalMax == 0` clause of the claim does hold. -/
theorem C1_failing_eval_29_percent :
    (check_all_configs bundle29).totalEarned = 29 ∧
    (check_all_configs bundle29).totalMax = 100 ∧
    (check_all_configs bundle29).percentage = 28 ∧
    round (((check_all_configs bundle29).totalEarned : ℚ) /
      ((check_all_configs bundle29).totalMax : ℚ) * 100) = 29 ∧
    (∀ t : ℕ, progress_pct t 0 = 0) := by
  have hE : (check_all_configs bundle29).totalEarned = 29 := by decide
  have hM : (check_all_configs bundle29).totalMax = 100 := by decide
  refine ⟨hE, hM, by decide, ?_, fun t => rfl⟩
  rw [hE, hM]
  have harg : ((29 : ℕ) : ℚ) / ((100 : ℕ) : ℚ) * 100 = ((29 : ℕ) : ℚ) := by
    norm_num
  rw [harg, round_natCast]
  norm_num

/-- C2 (confirmed): in every grading run the percentage is 100 exactly when
each of the five artifact reports is at full marks, and the `complete` flag
returned by the run holds exactly when the percentage is 100. -/
theorem C2_percentage_100_iff_all_full (b : ContentBundle) :
    ((check_all_configs b).percentage = 100 ↔
      ∀ r ∈ (check_all_configs b).artifacts, r.pointsEarned = r.pointsMax) ∧
    ((check_all_configs b).complete = true ↔ (check_all_configs b).percentage = 100) := by
  have h1 := check_prometheus_config_earned_le b.prometheusCfg
  have h2 := check_alertmanager_config_earned_le b.alertmanagerCfg
  have h3 := check_grafana_datasource_earned_le b.datasourceCfg
  have h4 := check_dashboard_earned_le b.dashboardCfg
  have h5 := check_alerts_earned_le b.alertsCfg
  constructor
  · rw [percentage_eq b, progress_pct_eq_100_iff (totalEarned_le b)]
    simp [check_all_configs, artifactReports, mkReport,
      check_prometheus_config_max, check_alertmanager_config_max,
      check_grafana_datasource_max, check_dashboard_max, check_alerts_max]
    omega
  · simp [check_all_configs]

/-- C3 (confirmed): with absent content every checker returns exactly one
failing outcome, named with the artifact's `... exists` label, zero points
earned, and the artifact's fixed maximum; no further rules are evaluated. -/
theorem C3_absent_content_single_outcome :
    check_prometheus_config none = ([⟨"prometheus.yml exists", false, "File not found"⟩], 0, 20) ∧
    check_alertmanager_config none = ([⟨"alertmanager.yml exists", false, "File not found"⟩], 0, 20) ∧
    check_grafana_datasource none = ([⟨"datasource config exists", false, "File not found"⟩], 0, 15) ∧
    check_dashboard DashContent.absent = ([⟨"dashboard.json exists", false, "File not found"⟩], 0, 25) ∧
    check_alerts none = ([⟨"alerts.yml exists", false, "File not found"⟩], 0, 20) ∧
    check_app_instrumentation none = ([⟨"app.py exists", false, "File not found"⟩], 0, 20) :=
  ⟨rfl, rfl, rfl, rfl, rfl, rfl⟩

/-- C4 (confirmed): when the dashboard JSON parse fails the checker returns
exactly the single failing `Valid JSON` outcome with 0 of 25 points — never a
partial score. -/
theorem C4_malformed_json_single_outcome :
    check_dashboard DashContent.malformed =
      ([⟨"Valid JSON", false, "Invalid JSON"⟩], 0, 25) := rfl

/-- C5 (refuted as stated): the claim quantifies over arbitrary text, but the
text `[]` is valid JSON of an unexpected shape — `json.loads` succeeds and
the subsequent `dashboard.get("panels", [])` on a list raises an uncaught
AttributeError (only `json.JSONDecodeError` is caught), so the dashboard
checker does not return any `pointsEarned`/`pointsMax` at all for that
content. -/
theorem C5_counterexample :
    check_dashboard_dyn (some (some (Json.arr []))) = Except.error "AttributeError" := rfl

/-- C5 (amended): the four text-artifact checkers satisfy the bounds
`0 ≤ pointsEarned ≤ pointsMax` with the fixed maxima 20/20/15/20 for every
content input; the dashboard checker satisfies them with its fixed maximum
25 for absent content, for parse failures, and for every parsed JSON input
on which it returns at all — but on valid JSON whose shape is not the
expected object (such as `[]`) it raises an uncaught exception instead of
returning. -/
theorem C5_amended_point_bounds :
    (∀ c : Option String, 0 ≤ (check_prometheus_config c).2.1 ∧
      (check_prometheus_config c).2.1 ≤ (check_prometheus_config c).2.2 ∧
      (check_prometheus_config c).2.2 = 20) ∧
    (∀ c : Option String, 0 ≤ (check_alertmanager_config c).2.1 ∧
      (check_alertmanager_config c).2.1 ≤ (check_alertmanager_config c).2.2 ∧
      (check_alertmanager_config c).2.2 = 20) ∧
    (∀ c : Option String, 0 ≤ (check_grafana_datasource c).2.1 ∧
      (check_grafana_datasource c).2.1 ≤ (check_grafana_datasource c).2.2 ∧
      (check_grafana_datasource c).2.2 = 15) ∧
    (∀ (j : Option (Option Json)) (r : List DynOutcome × ℕ × ℕ),
      check_dashboard_dyn j = Except.ok r →
      0 ≤ r.2.1 ∧ r.2.1 ≤ r.2.2 ∧ r.2.2 = 25) ∧
    (∀ c : Option String, 0 ≤ (check_alerts c).2.1 ∧
      (check_alerts c).2.1 ≤ (check_alerts c).2.2 ∧
      (check_alerts c).2.2 = 20) := by
  refine ⟨fun c => ⟨Nat.zero_le _, ?_, check_prometheus_config_max c⟩,
    fun c => ⟨Nat.zero_le _, ?_, check_alertmanager_config_max c⟩,
    fun c => ⟨Nat.zero_le _, ?_, check_grafana_datasource_max c⟩,
    fun j r h => ⟨Nat.zero_le _, (check_dashboard_dyn_ok_bounds j r h).1,
      (check_dashboard_dyn_ok_bounds j r h).2⟩,
    fun c => ⟨Nat.zero_le _, ?_, check_alerts_max c⟩⟩
  · rw [check_prometheus_config_max c]
    exact check_prometheus_config_earned_le c
  · rw [check_alertmanager_config_max c]
    exact check_alertmanager_config_earned_le c
  · rw [check_grafana_datasource_max c]
    exact check_grafana_datasource_earned_le c
  · rw [check_alerts_max c]
    exact check_alerts_earned_le c

/-- Witness for the amended C5: the dynamic dashboard checker on the empty
JSON object returns, and its result (7 of 25) lies inside the claimed
bounds. -/
theorem C5_witness :
    0 ≤ dynEmptyObjResult.2.1 ∧ dynEmptyObjResult.2.1 ≤ dynEmptyObjResult.2.2 ∧
      dynEmptyObjResult.2.2 = 25 :=
  C5_amended_point_bounds.2.2.2.1 (some (some (Json.obj []))) dynEmptyObjResult rfl

/-- C6 (refuted as stated): the text consisting solely of the commented line
`# alertmanagers:` has its directive counted as live by the alertmanagers
comment-awareness check of the collector-config checker — the check passes
and awards its 4 points — although the directive occurs only with a leading
`#` on its own line. -/
theorem C6_counterexample :
    lineCommented ("# alertmanagers:".toList) = true ∧
    containsLiteral "# alertmanagers:" "alertmanagers:" = true ∧
    (check_prometheus_config (some "# alertmanagers:")).1[1]? =
      some ⟨"Alertmanager config", true, "Configured"⟩ ∧
    (check_prometheus_config (some "# alertmanagers:")).2.1 = 4 := by decide

/-- C6 (amended): for the scrape-job checks of the collector-config checker,
a job directive whose single-quoted spelling occurs anywhere preceded by
`# ` — in particular `job_name: ...` single-quoted and commented out on its
own line — is never counted as live, regardless of whether the same literal
also appears later in the text uncommented.  This guarantee is specific to
the single-quoted spelling: the code only negates the single-quoted pattern,
so the double-quoted spelling commented out on its own line is still counted
as live (second and third conjuncts), just as the commented `alertmanagers:`
directive is (see the counterexample). -/
theorem C6_amended_commented_job_never_live :
    (∀ content job : String, containsLiteral content ("# " ++ jobPattern job) = true →
      jobCheck content job = (⟨"Job: " ++ job, false, "Missing or commented"⟩, 0)) ∧
    lineCommented ("# job_name: \"app\"".toList) = true ∧
    jobCheck "# job_name: \"app\"" "app" = (⟨"Job: app", true, "Configured"⟩, 4) := by
  refine ⟨fun content job h => ?_, by decide, by decide⟩
  unfold jobCheck
  rw [h]
  simp

/-- Witness for the amended C6: a text with the single-quoted commented job
line first and the same literal uncommented on the following line still
fails the check. -/
theorem C6_witness :
    containsLiteral ("# job_name: " ++ sq ++ "app" ++ sq ++ "\njob_name: " ++ sq ++ "app" ++ sq)
      ("# " ++ jobPattern "app") = true ∧
    jobCheck ("# job_name: " ++ sq ++ "app" ++ sq ++ "\njob_name: " ++ sq ++ "app" ++ sq) "app" =
      (⟨"Job: app", false, "Missing or commented"⟩, 0) :=
  ⟨by decide, C6_amended_commented_job_never_live.1 _ _ (by decide)⟩

/-- C7 (refuted as stated): the claim quotes the zero-point details as
`commented out` and `missing`, but the checker emits `Commented out` and
`Missing`; at the scenario input the emitted detail is not the claimed
string. -/
theorem C7_counterexample :
    (check_alerts (some "# alert: HighErrorRate")).1[0]? =
      some ⟨"Alert: HighErrorRate", false, "Commented out"⟩ ∧
    ¬ (alertCheck "# alert: HighErrorRate" "HighErrorRate").1.detail = "commented out" ∧
    (alertCheck "# alert: HighErrorRate" "HighErrorRate").2 = 0 := by decide

/-- C7 (amended): each alert rule awards 5 points with detail `Configured`
when the literal `alert: ...` occurs and some non-comment line contains it;
awards 0 with detail `Commented out` when the literal occurs but only inside
comment-prefixed lines; and awards 0 with detail `Missing` when the literal
never occurs. -/
theorem C7_amended_alert_rule_trichotomy (content alert : String) :
    (containsLiteral content ("alert: " ++ alert) = true →
      alertLive content alert = true →
      alertCheck content alert = (⟨"Alert: " ++ alert, true, "Configured"⟩, 5)) ∧
    (containsLiteral content ("alert: " ++ alert) = true →
      alertLive content alert = false →
      alertCheck content alert = (⟨"Alert: " ++ alert, false, "Commented out"⟩, 0)) ∧
    (containsLiteral content ("alert: " ++ alert) = false →
      alertCheck content alert = (⟨"Alert: " ++ alert, false, "Missing"⟩, 0)) := by
  unfold alertCheck
  refine ⟨fun h1 h2 => ?_, fun h1 h2 => ?_, fun h1 => ?_⟩
  · simp [h1, h2]
  · simp [h1, h2]
  · simp [h1]

/-- Witness for the amended C7: all three branches at concrete inputs. -/
theorem C7_witness :
    alertCheck "alert: HighLatency" "HighLatency" =
      (⟨"Alert: HighLatency", true, "Configured"⟩, 5) ∧
    alertCheck "# alert: ServiceDown" "ServiceDown" =
      (⟨"Alert: ServiceDown", false, "Commented out"⟩, 0) ∧
    alertCheck "" "HighCPUUsage" = (⟨"Alert: HighCPUUsage", false, "Missing"⟩, 0) :=
  ⟨(C7_amended_alert_rule_trichotomy "alert: HighLatency" "HighLatency").1
      (by decide) (by decide),
   (C7_amended_alert_rule_trichotomy "# alert: ServiceDown" "ServiceDown").2.1
      (by decide) (by decide),
   (C7_amended_alert_rule_trichotomy "" "HighCPUUsage").2.2 (by decide)⟩

/-- C8 (confirmed): on the text `scrape_interval: 30s` alone, the collector
checker awards exactly the 2-point wrong-value partial credit and every
other rule fails. -/
theorem C8_wrong_value_partial_credit :
    check_prometheus_config (some "scrape_interval: 30s") =
      ([⟨"Scrape interval 15s", false, "Wrong value"⟩,
        ⟨"Alertmanager config", false, "Missing or commented"⟩,
        ⟨"Job: prometheus", false, "Missing or commented"⟩,
        ⟨"Job: app", false, "Missing or commented"⟩,
        ⟨"Job: node", false, "Missing or commented"⟩], 2, 20) := by decide

/-- C9 (refuted as stated): a valid-JSON dashboard with two empty panels and
no title satisfies the scenario's hypotheses but earns 7 points
(5 parse + 0 panels + 0 queries + 2 title), not the claimed 12. -/
theorem C9_counterexample :
    twoPanelDash.panels.length = 2 ∧
    (twoPanelDash.panels.all fun p => p.targets.isEmpty) = true ∧
    twoPanelDash.title = none ∧
    (check_dashboard (DashContent.parsed twoPanelDash)).2.1 = 7 ∧
    ¬ (check_dashboard (DashContent.parsed twoPanelDash)).2.1 = 12 := by decide

/-- C9 (amended): for every parsed dashboard with exactly 2 panels, no query
targets and a default-or-missing title, the panel rule awards 0 of 5, the
query rule 0 of 10, the title rule its 2-point default credit, and with the
5 parse points the total is `pointsEarned == 7` of 25. -/
theorem C9_amended_two_panel_dashboard_score (d : Dashboard)
    (h1 : d.panels.length = 2)
    (h2 : ∀ p ∈ d.panels, p.targets = [])
    (h3 : d.title = none ∨ d.title = some "" ∨ d.title = some "App Dashboard") :
    check_dashboard (DashContent.parsed d) =
      ([⟨"Valid JSON", true, ""⟩,
        ⟨"4+ panels", false, "Only 2 panels"⟩,
        ⟨"Real PromQL queries", false, "No real queries"⟩,
        ⟨"Custom title", false, "Using default title"⟩], 7, 25) := by
  have hdt : dashTargets d = [] := by
    unfold dashTargets
    exact flatMap_targets_nil d.panels h2
  have hp : panelsRule d = (⟨"4+ panels", false, "Only 2 panels"⟩, 0) := by
    unfold panelsRule
    rw [h1]
    decide
  have hq : queriesRule d = (⟨"Real PromQL queries", false, "No real queries"⟩, 0) := by
    have hh : hasRealQueries d = false := by
      unfold hasRealQueries
      rw [hdt]
      rfl
    have hpc : placeholderCount d = 0 := by
      unfold placeholderCount
      rw [hdt]
      rfl
    unfold queriesRule
    rw [hh, hpc]
    simp
  have ht : titleRule d = (⟨"Custom title", false, "Using default title"⟩, 2) := by
    unfold titleRule
    rcases h3 with h | h | h <;> rw [h] <;> simp
  simp [check_dashboard, hp, hq, ht]

/-- Witness for the amended C9 at the concrete two-panel dashboard. -/
theorem C9_witness :
    check_dashboard (DashContent.parsed twoPanelDash) =
      ([⟨"Valid JSON", true, ""⟩,
        ⟨"4+ panels", false, "Only 2 panels"⟩,
        ⟨"Real PromQL queries", false, "No real queries"⟩,
        ⟨"Custom title", false, "Using default title"⟩], 7, 25) :=
  C9_amended_two_panel_dashboard_score twoPanelDash (by decide) (by decide)
    (Or.inl rfl)

/-- C10 (confirmed): every grading run grades exactly the five fixed
artifacts in the fixed order, so `totalMax` is always 100; the separately
defined `check_app_instrumentation` (its own fixed maximum 20) is not among
them and contributes nothing to the totals. -/
theorem C10_five_artifacts_totalMax_100 :
    (∀ b : ContentBundle, (check_all_configs b).totalMax = 100 ∧
      (check_all_configs b).artifacts.map ArtifactReport.displayName =
        ["Prometheus Config", "Alertmanager", "Grafana Datasource",
         "Grafana Dashboard", "Alert Rules"]) ∧
    (∀ c : Option String, (check_app_instrumentation c).2.2 = 20) := by
  refine ⟨fun b => ⟨totalMax_eq b, ?_⟩, check_app_instrumentation_max⟩
  simp [check_all_configs, artifactReports, mkReport]

end MonitoringStack
